import Mathlib

/-!
# Insights handlers (`api4/insights.go`)

A shallow embedding of the seven insights request handlers and of
`postCountByDurationViewModel`.  Every handler is a function from the
collaborators it talks to (`App`) and the request context (`Context`) to an
`Outcome`: the final `c.Err`, the bodies written with `w.Write`, and the
ordered list of collaborator calls it made.  The calls recorded are those on
`c.App`, `c.RequireTeamId`, `model.StartOfDayForTimeRange` (which reads the
clock) and `json.Marshal`; the pure helpers of package `model` are applied
without a record.
-/

namespace Insights

/-! ## Data model -/

/-- The `model.AppError` value, reduced to the fields `NewAppError` is given here. -/
structure AppError where
  Where : String
  Id : String
  DetailedError : String
  StatusCode : Nat
  Wrapped : Option String
  deriving DecidableEq, Repr

/-- A `model.Permission`, identified by its id. -/
structure Permission where
  Id : String
  deriving DecidableEq, Repr

/-- A `*time.Location`, identified by its name. -/
structure Location where
  name : String
  deriving DecidableEq, Repr

/-- A `time.Time`: the instant in Unix milliseconds and the location it is read in. -/
structure Time where
  ms : Int
  loc : Location
  deriving DecidableEq, Repr

/-- The method `time.Time.UnixMilli`. -/
def Time.UnixMilli (t : Time) : Int := t.ms

/-- The session of the request, `c.AppContext.Session()`. -/
structure Session where
  Id : String
  UserId : String
  deriving DecidableEq, Repr

/-- A `model.Team`. -/
structure Team where
  Id : String
  deriving DecidableEq, Repr

/-- A `model.User`, with the results of `GetTimezoneLocation()` and `IsGuest()`. -/
structure User where
  Id : String
  TimezoneLocation : Location
  Guest : Bool
  deriving DecidableEq, Repr

/-- The method `User.GetTimezoneLocation`. -/
def User.GetTimezoneLocation (u : User) : Location := u.TimezoneLocation

/-- The method `User.IsGuest`. -/
def User.IsGuest (u : User) : Bool := u.Guest

/-- A `model.License`. -/
structure License where
  SkuShortName : String
  deriving DecidableEq, Repr

/-- The `model.PostCountGrouping` values. -/
inductive PostCountGrouping where
  | PostsByHour
  | PostsByDay
  deriving DecidableEq, Repr

/-- The `model.InsightsOpts` handed to every ranked query. -/
structure InsightsOpts where
  StartUnixMilli : Int
  Page : Int
  PerPage : Int
  deriving DecidableEq, Repr

/-- The request parameters `c.Params` the handlers read. -/
structure Params where
  TeamId : String
  TimeRange : String
  Page : Int
  PerPage : Int
  deriving DecidableEq, Repr

/-- A `model.DurationPostCount` row of the series query. -/
structure DurationPostCount where
  ChannelID : String
  Duration : String
  PostCount : Int
  deriving DecidableEq, Repr

/-- The `model.ChannelPostCountByDuration` map; `none` is Go's `nil` map. -/
abbrev ChannelPostCountByDuration := Option (List (String × List (String × Int)))

/-- The number of entries of the map, `len(m)`; a `nil` map has none. -/
def ChannelPostCountByDuration.len (m : ChannelPostCountByDuration) : Nat :=
  match m with
  | none => 0
  | some l => l.length

/-- A `model.TopReaction`. -/
structure TopReaction where
  EmojiName : String
  Count : Int
  deriving DecidableEq, Repr

/-- A `model.TopReactionList`. -/
structure TopReactionList where
  HasNext : Bool
  Items : List TopReaction
  deriving DecidableEq, Repr

/-- A `model.TopChannel`. -/
structure TopChannel where
  ID : String
  MessageCount : Int
  deriving DecidableEq, Repr

/-- A `model.TopChannelList`. -/
structure TopChannelList where
  HasNext : Bool
  Items : List TopChannel
  PostCountByDuration : ChannelPostCountByDuration
  deriving DecidableEq, Repr

/-- Modelled from the spec: the method `TopChannelList.ChannelIDs` of package
`model`, which is not in `insights.go`; "the returned page's channel ids", the
id of every item of the page in order. -/
def TopChannelList.ChannelIDs (t : TopChannelList) : List String :=
  t.Items.map (fun item => item.ID)

/-- A `model.TopThread`. -/
structure TopThread where
  PostId : String
  ReplyCount : Int
  deriving DecidableEq, Repr

/-- A `model.TopThreadList`. -/
structure TopThreadList where
  HasNext : Bool
  Items : List TopThread
  deriving DecidableEq, Repr

/-- A `model.NewTeamMember`. -/
structure NewTeamMember where
  Id : String
  CreateAt : Int
  deriving DecidableEq, Repr

/-- A `model.NewTeamMembersList`. -/
structure NewTeamMembersList where
  HasNext : Bool
  Items : List NewTeamMember
  TotalCount : Int
  deriving DecidableEq, Repr

/-- The values the handlers hand to `json.Marshal`. -/
inductive JsonValue where
  | topReactions (l : TopReactionList)
  | topChannels (l : TopChannelList)
  | topThreads (l : TopThreadList)
  | newTeamMembers (l : NewTeamMembersList)
  deriving DecidableEq, Repr

/-- The request `c`, `r` as a handler receives it: parameters, session, and the
`team_id` query parameter of the URL.  `c.Err` is `nil` on entry. -/
structure Context where
  Params : Params
  Session : Session
  queryTeamId : String
  deriving DecidableEq, Repr

/-- One call a handler makes to a collaborator, with its arguments. -/
inductive Call where
  | RequireTeamId (teamId : String)
  | GetTeam (teamId : String)
  | SessionHasPermissionToTeam (s : Session) (teamId : String) (p : Permission)
  | GetUser (userId : String)
  | License
  | StartOfDayForTimeRange (timeRange : String) (loc : Location)
  | GetTopReactionsForTeamSince (teamId userId : String) (opts : InsightsOpts)
  | GetTopReactionsForUserSince (userId teamId : String) (opts : InsightsOpts)
  | GetTopChannelsForTeamSince (teamId userId : String) (opts : InsightsOpts)
  | GetTopChannelsForUserSince (userId teamId : String) (opts : InsightsOpts)
  | GetTopThreadsForTeamSince (teamId userId : String) (opts : InsightsOpts)
  | GetTopThreadsForUserSince (teamId userId : String) (opts : InsightsOpts)
  | GetNewTeamMembersSince (teamId : String) (opts : InsightsOpts)
  | PostCountsByDuration (channelIDs : List String) (startTime : Int) (userID : Option String)
      (grouping : PostCountGrouping) (loc : Location)
  | JsonMarshal (v : JsonValue)
  deriving DecidableEq, Repr

/-- The ranked or listing queries of the data source. -/
def Call.isRanked : Call → Bool
  | .GetTopReactionsForTeamSince _ _ _ => true
  | .GetTopReactionsForUserSince _ _ _ => true
  | .GetTopChannelsForTeamSince _ _ _ => true
  | .GetTopChannelsForUserSince _ _ _ => true
  | .GetTopThreadsForTeamSince _ _ _ => true
  | .GetTopThreadsForUserSince _ _ _ => true
  | .GetNewTeamMembersSince _ _ => true
  | _ => false

/-- The post-count series query of the data source. -/
def Call.isSeries : Call → Bool
  | .PostCountsByDuration _ _ _ _ _ => true
  | _ => false

/-- The calls of `json.Marshal`. -/
def Call.isMarshal : Call → Bool
  | .JsonMarshal _ => true
  | _ => false

/-- The calls of `model.StartOfDayForTimeRange`. -/
def Call.isStartOfDay : Call → Bool
  | .StartOfDayForTimeRange _ _ => true
  | _ => false

/-- The `model.InsightsOpts` a ranked or listing query was given. -/
def Call.opts? : Call → Option InsightsOpts
  | .GetTopReactionsForTeamSince _ _ o => some o
  | .GetTopReactionsForUserSince _ _ o => some o
  | .GetTopChannelsForTeamSince _ _ o => some o
  | .GetTopChannelsForUserSince _ _ o => some o
  | .GetTopThreadsForTeamSince _ _ o => some o
  | .GetTopThreadsForUserSince _ _ o => some o
  | .GetNewTeamMembersSince _ o => some o
  | _ => none

/-- The collaborators of the handlers, none of which is defined in `insights.go`:
the constants and functions of package `model`, the helpers of `Context`, the
`App` methods, and `json.Marshal`.  `RequireTeamId` gives the error the method
leaves in `c.Err` (on a context that had none), `SetInvalidURLParam` and
`SetPermissionError` the error they set. -/
structure App where
  TimeRangeToday : String
  PermissionViewTeam : Permission
  LicenseShortSkuProfessional : String
  LicenseShortSkuEnterprise : String
  IsValidId : String → Bool
  StartOfDayForTimeRange : String → Location → Time
  TimeRangeToNumberDays : String → Int
  ToDailyPostCountViewModel : List DurationPostCount → Time → Int → List String →
    ChannelPostCountByDuration
  RequireTeamId : Params → Option AppError
  SetInvalidURLParam : String → AppError
  SetPermissionError : Permission → AppError
  GetTeam : String → Except AppError Team
  SessionHasPermissionToTeam : Session → String → Permission → Bool
  GetUser : String → Except AppError User
  License : License
  GetTopReactionsForTeamSince : String → String → InsightsOpts → Except AppError TopReactionList
  GetTopReactionsForUserSince : String → String → InsightsOpts → Except AppError TopReactionList
  GetTopChannelsForTeamSince : String → String → InsightsOpts → Except AppError TopChannelList
  GetTopChannelsForUserSince : String → String → InsightsOpts → Except AppError TopChannelList
  GetTopThreadsForTeamSince : String → String → InsightsOpts → Except AppError TopThreadList
  GetTopThreadsForUserSince : String → String → InsightsOpts → Except AppError TopThreadList
  GetNewTeamMembersSince : String → InsightsOpts → Except AppError (NewTeamMembersList × Int)
  PostCountsByDuration : List String → Int → Option String → PostCountGrouping → Location →
    Except AppError (List DurationPostCount)
  JsonMarshal : JsonValue → Except String String

/-- What a handler leaves behind: `c.Err`, the bodies written, the calls made in order. -/
structure Outcome where
  Err : Option AppError
  written : List String
  calls : List Call
  deriving DecidableEq, Repr

/-- The call `model.NewAppError(where, id, nil, details, status)`. -/
def NewAppError (wh id details : String) (status : Nat) : AppError :=
  ⟨wh, id, details, status, none⟩

/-- The method `AppError.Wrap`. -/
def AppError.Wrap (e : AppError) (err : String) : AppError :=
  { e with Wrapped := some err }

/-- The constant `http.StatusInternalServerError`. -/
def StatusInternalServerError : Nat := 500

/-- The constant `http.StatusNotImplemented`. -/
def StatusNotImplemented : Nat := 501

/-- The end of six of the handlers: `json.Marshal` of the result, a wrapped
`api.marshal_error` if that fails, `w.Write(js)` otherwise; `pre` are the calls
made before. -/
def marshalAndWrite (app : App) (wh : String) (v : JsonValue) (pre : List Call) : Outcome :=
  match app.JsonMarshal v with
  | .error err =>
    ⟨some ((NewAppError wh "api.marshal_error" "" StatusInternalServerError).Wrap err), [],
      pre ++ [.JsonMarshal v]⟩
  | .ok js => ⟨none, [js], pre ++ [.JsonMarshal v]⟩

/-! ## `postCountByDurationViewModel` -/

/-- The function `postCountByDurationViewModel`: the series, the error, and the calls made. -/
def postCountByDurationViewModel (app : App) (topChannelList : TopChannelList)
    (startTime : Time) (timeRange : String) (userID : Option String) (location : Location) :
    ChannelPostCountByDuration × Option AppError × List Call :=
  if topChannelList.Items.length == 0 then
    (none, none, [])
  else
    let channelIDs := topChannelList.ChannelIDs
    let grouping :=
      if timeRange == app.TimeRangeToday then PostCountGrouping.PostsByHour
      else PostCountGrouping.PostsByDay
    let call := Call.PostCountsByDuration channelIDs startTime.UnixMilli userID grouping location
    match app.PostCountsByDuration channelIDs startTime.UnixMilli userID grouping location with
    | .error err => (none, some err, [call])
    | .ok postCountsByDay =>
      (app.ToDailyPostCountViewModel postCountsByDay startTime
        (app.TimeRangeToNumberDays timeRange) channelIDs, none, [call])

/-! ## Top reactions -/

/-- The handler `getTopReactionsForTeamSince`. -/
def getTopReactionsForTeamSince (app : App) (c : Context) : Outcome :=
  let t1 := [Call.RequireTeamId c.Params.TeamId]
  match app.RequireTeamId c.Params with
  | some e => ⟨some e, [], t1⟩
  | none =>
  let t2 := t1 ++ [.GetTeam c.Params.TeamId]
  match app.GetTeam c.Params.TeamId with
  | .error appErr => ⟨some appErr, [], t2⟩
  | .ok team =>
  let t3 := t2 ++ [.SessionHasPermissionToTeam c.Session team.Id app.PermissionViewTeam]
  if !app.SessionHasPermissionToTeam c.Session team.Id app.PermissionViewTeam then
    ⟨some (app.SetPermissionError app.PermissionViewTeam), [], t3⟩
  else
  let t4 := t3 ++ [.GetUser c.Session.UserId]
  match app.GetUser c.Session.UserId with
  | .error appErr => ⟨some appErr, [], t4⟩
  | .ok user =>
  let startTime := app.StartOfDayForTimeRange c.Params.TimeRange user.GetTimezoneLocation
  let opts : InsightsOpts := ⟨startTime.UnixMilli, c.Params.Page, c.Params.PerPage⟩
  let t5 := t4 ++ [.StartOfDayForTimeRange c.Params.TimeRange user.GetTimezoneLocation,
    .GetTopReactionsForTeamSince c.Params.TeamId c.Session.UserId opts]
  match app.GetTopReactionsForTeamSince c.Params.TeamId c.Session.UserId opts with
  | .error appErr => ⟨some appErr, [], t5⟩
  | .ok topReactionList =>
  marshalAndWrite app "getTopReactionsForTeamSince" (.topReactions topReactionList) t5

/-- The handler `getTopReactionsForUserSince`. -/
def getTopReactionsForUserSince (app : App) (c : Context) : Outcome :=
  let teamId := c.queryTeamId
  let userPart (pre : List Call) : Outcome :=
    let t4 := pre ++ [.GetUser c.Session.UserId]
    match app.GetUser c.Session.UserId with
    | .error appErr => ⟨some appErr, [], t4⟩
    | .ok user =>
    let startTime := app.StartOfDayForTimeRange c.Params.TimeRange user.GetTimezoneLocation
    let opts : InsightsOpts := ⟨startTime.UnixMilli, c.Params.Page, c.Params.PerPage⟩
    let t5 := t4 ++ [.StartOfDayForTimeRange c.Params.TimeRange user.GetTimezoneLocation,
      .GetTopReactionsForUserSince c.Session.UserId teamId opts]
    match app.GetTopReactionsForUserSince c.Session.UserId teamId opts with
    | .error appErr => ⟨some appErr, [], t5⟩
    | .ok topReactionList =>
    marshalAndWrite app "getTopReactionsForUserSince" (.topReactions topReactionList) t5
  if teamId != "" then
    if !app.IsValidId teamId then
      ⟨some (app.SetInvalidURLParam "team_id"), [], []⟩
    else
    let t2 := [Call.GetTeam teamId]
    match app.GetTeam teamId with
    | .error appErr => ⟨some appErr, [], t2⟩
    | .ok team =>
    let t3 := t2 ++ [.SessionHasPermissionToTeam c.Session team.Id app.PermissionViewTeam]
    if !app.SessionHasPermissionToTeam c.Session team.Id app.PermissionViewTeam then
      ⟨some (app.SetPermissionError app.PermissionViewTeam), [], t3⟩
    else
    userPart t3
  else
    userPart []

/-! ## Top channels -/

/-- The tail shared by the two top-channel handlers, from the ranked result on:
`postCountByDurationViewModel` on the page, its series stored in the page, then
`json.Marshal` and `w.Write`. -/
def attachSeriesAndWrite (app : App) (wh : String) (topChannels : TopChannelList)
    (startTime : Time) (timeRange : String) (userID : Option String) (loc : Location)
    (pre : List Call) : Outcome :=
  match postCountByDurationViewModel app topChannels startTime timeRange userID loc with
  | (_, some appErr, cs) => ⟨some appErr, [], pre ++ cs⟩
  | (series, none, cs) =>
  marshalAndWrite app wh (.topChannels { topChannels with PostCountByDuration := series })
    (pre ++ cs)

/-- The handler `getTopChannelsForTeamSince`. -/
def getTopChannelsForTeamSince (app : App) (c : Context) : Outcome :=
  let t1 := [Call.RequireTeamId c.Params.TeamId]
  match app.RequireTeamId c.Params with
  | some e => ⟨some e, [], t1⟩
  | none =>
  let t2 := t1 ++ [.GetTeam c.Params.TeamId]
  match app.GetTeam c.Params.TeamId with
  | .error appErr => ⟨some appErr, [], t2⟩
  | .ok team =>
  let t3 := t2 ++ [.SessionHasPermissionToTeam c.Session team.Id app.PermissionViewTeam]
  if !app.SessionHasPermissionToTeam c.Session team.Id app.PermissionViewTeam then
    ⟨some (app.SetPermissionError app.PermissionViewTeam), [], t3⟩
  else
  let t4 := t3 ++ [.GetUser c.Session.UserId]
  match app.GetUser c.Session.UserId with
  | .error appErr => ⟨some appErr, [], t4⟩
  | .ok user =>
  let loc := user.GetTimezoneLocation
  let startTime := app.StartOfDayForTimeRange c.Params.TimeRange loc
  let opts : InsightsOpts := ⟨startTime.UnixMilli, c.Params.Page, c.Params.PerPage⟩
  let t5 := t4 ++ [.StartOfDayForTimeRange c.Params.TimeRange loc,
    .GetTopChannelsForTeamSince c.Params.TeamId c.Session.UserId opts]
  match app.GetTopChannelsForTeamSince c.Params.TeamId c.Session.UserId opts with
  | .error appErr => ⟨some appErr, [], t5⟩
  | .ok topChannels =>
  attachSeriesAndWrite app "getTopChannelsForTeamSince" topChannels startTime
    c.Params.TimeRange none loc t5

/-- The handler `getTopChannelsForUserSince`. -/
def getTopChannelsForUserSince (app : App) (c : Context) : Outcome :=
  let teamId := c.queryTeamId
  let userPart (pre : List Call) : Outcome :=
    let t4 := pre ++ [.GetUser c.Session.UserId]
    match app.GetUser c.Session.UserId with
    | .error appErr => ⟨some appErr, [], t4⟩
    | .ok user =>
    let loc := user.GetTimezoneLocation
    let startTime := app.StartOfDayForTimeRange c.Params.TimeRange loc
    let opts : InsightsOpts := ⟨startTime.UnixMilli, c.Params.Page, c.Params.PerPage⟩
    let t5 := t4 ++ [.StartOfDayForTimeRange c.Params.TimeRange loc,
      .GetTopChannelsForUserSince c.Session.UserId teamId opts]
    match app.GetTopChannelsForUserSince c.Session.UserId teamId opts with
    | .error appErr => ⟨some appErr, [], t5⟩
    | .ok topChannels =>
    attachSeriesAndWrite app "getTopChannelsForUserSince" topChannels startTime
      c.Params.TimeRange (some c.Session.UserId) loc t5
  if teamId != "" then
    if !app.IsValidId teamId then
      ⟨some (app.SetInvalidURLParam "team_id"), [], []⟩
    else
    let t2 := [Call.GetTeam teamId]
    match app.GetTeam teamId with
    | .error appErr => ⟨some appErr, [], t2⟩
    | .ok team =>
    let t3 := t2 ++ [.SessionHasPermissionToTeam c.Session team.Id app.PermissionViewTeam]
    if !app.SessionHasPermissionToTeam c.Session team.Id app.PermissionViewTeam then
      ⟨some (app.SetPermissionError app.PermissionViewTeam), [], t3⟩
    else
    userPart t3
  else
    userPart []

/-! ## Top threads -/

/-- The license check of the thread handlers: the SKU is neither professional nor enterprise. -/
def licenseTooLow (app : App) : Bool :=
  app.License.SkuShortName != app.LicenseShortSkuProfessional &&
    app.License.SkuShortName != app.LicenseShortSkuEnterprise

/-- The handler `getTopThreadsForTeamSince`. -/
def getTopThreadsForTeamSince (app : App) (c : Context) : Outcome :=
  let t1 := [Call.RequireTeamId c.Params.TeamId]
  match app.RequireTeamId c.Params with
  | some e => ⟨some e, [], t1⟩
  | none =>
  let t2 := t1 ++ [.GetTeam c.Params.TeamId]
  match app.GetTeam c.Params.TeamId with
  | .error appErr => ⟨some appErr, [], t2⟩
  | .ok team =>
  let t3 := t2 ++ [.License]
  if licenseTooLow app then
    ⟨some (NewAppError "" "api.insights.license_error" "" StatusNotImplemented), [], t3⟩
  else
  let t4 := t3 ++ [.GetUser c.Session.UserId]
  match app.GetUser c.Session.UserId with
  | .error appErr => ⟨some appErr, [], t4⟩
  | .ok user =>
  let t5 := t4 ++ [.SessionHasPermissionToTeam c.Session team.Id app.PermissionViewTeam]
  if !app.SessionHasPermissionToTeam c.Session team.Id app.PermissionViewTeam
      || user.IsGuest then
    ⟨some (app.SetPermissionError app.PermissionViewTeam), [], t5⟩
  else
  let startTime := app.StartOfDayForTimeRange c.Params.TimeRange user.GetTimezoneLocation
  let opts : InsightsOpts := ⟨startTime.UnixMilli, c.Params.Page, c.Params.PerPage⟩
  let t6 := t5 ++ [.StartOfDayForTimeRange c.Params.TimeRange user.GetTimezoneLocation,
    .GetTopThreadsForTeamSince c.Params.TeamId c.Session.UserId opts]
  match app.GetTopThreadsForTeamSince c.Params.TeamId c.Session.UserId opts with
  | .error appErr => ⟨some appErr, [], t6⟩
  | .ok topThreads =>
  marshalAndWrite app "getTopThreadsForTeamSince" (.topThreads topThreads) t6

/-- The handler `getTopThreadsForUserSince`. -/
def getTopThreadsForUserSince (app : App) (c : Context) : Outcome :=
  let teamId := c.queryTeamId
  let t1 := [Call.GetUser c.Session.UserId]
  match app.GetUser c.Session.UserId with
  | .error appErr => ⟨some appErr, [], t1⟩
  | .ok user =>
  let queryPart (pre : List Call) : Outcome :=
    let startTime := app.StartOfDayForTimeRange c.Params.TimeRange user.GetTimezoneLocation
    let opts : InsightsOpts := ⟨startTime.UnixMilli, c.Params.Page, c.Params.PerPage⟩
    let t6 := pre ++ [.StartOfDayForTimeRange c.Params.TimeRange user.GetTimezoneLocation,
      .GetTopThreadsForUserSince teamId c.Session.UserId opts]
    match app.GetTopThreadsForUserSince teamId c.Session.UserId opts with
    | .error appErr => ⟨some appErr, [], t6⟩
    | .ok topThreads =>
    marshalAndWrite app "getTopThreadsForUserSince" (.topThreads topThreads) t6
  if teamId != "" then
    if !app.IsValidId teamId then
      ⟨some (app.SetInvalidURLParam "team_id"), [], t1⟩
    else
    let t2 := t1 ++ [.GetTeam teamId]
    match app.GetTeam teamId with
    | .error teamErr => ⟨some teamErr, [], t2⟩
    | .ok team =>
    let t3 := t2 ++ [.License]
    if licenseTooLow app then
      ⟨some (NewAppError "" "api.insights.license_error" "" StatusNotImplemented), [], t3⟩
    else
    let t4 := t3 ++ [.SessionHasPermissionToTeam c.Session team.Id app.PermissionViewTeam]
    if !app.SessionHasPermissionToTeam c.Session team.Id app.PermissionViewTeam
        || user.IsGuest then
      ⟨some (app.SetPermissionError app.PermissionViewTeam), [], t4⟩
    else
    queryPart t4
  else
    queryPart t1

/-! ## New team members -/

/-- The handler `getNewTeamMembersSince`. -/
def getNewTeamMembersSince (app : App) (c : Context) : Outcome :=
  let t1 := [Call.RequireTeamId c.Params.TeamId]
  match app.RequireTeamId c.Params with
  | some e => ⟨some e, [], t1⟩
  | none =>
  let t2 := t1 ++ [.GetTeam c.Params.TeamId]
  match app.GetTeam c.Params.TeamId with
  | .error err => ⟨some err, [], t2⟩
  | .ok team =>
  let t3 := t2 ++ [.SessionHasPermissionToTeam c.Session team.Id app.PermissionViewTeam]
  if !app.SessionHasPermissionToTeam c.Session team.Id app.PermissionViewTeam then
    ⟨some (app.SetPermissionError app.PermissionViewTeam), [], t3⟩
  else
  let t4 := t3 ++ [.GetUser c.Session.UserId]
  match app.GetUser c.Session.UserId with
  | .error err => ⟨some err, [], t4⟩
  | .ok user =>
  let loc := user.GetTimezoneLocation
  let startTime := app.StartOfDayForTimeRange c.Params.TimeRange loc
  let opts : InsightsOpts := ⟨startTime.UnixMilli, c.Params.Page, c.Params.PerPage⟩
  let t5 := t4 ++ [.StartOfDayForTimeRange c.Params.TimeRange loc,
    .GetNewTeamMembersSince c.Params.TeamId opts]
  match app.GetNewTeamMembersSince c.Params.TeamId opts with
  | .error err => ⟨some err, [], t5⟩
  | .ok (ntms, count) =>
  let ntms := { ntms with TotalCount := count }
  let t6 := t5 ++ [.JsonMarshal (.newTeamMembers ntms)]
  match app.JsonMarshal (.newTeamMembers ntms) with
  | .error jsonErr =>
    ⟨some (NewAppError "getNewTeamembersForTeamSince" "api.marshal_error" jsonErr
      StatusInternalServerError), [], t6⟩
  | .ok js => ⟨none, [js], t6⟩

/-! ## The seven handlers together -/

/-- The seven routes registered by `InitInsights`. -/
inductive Handler where
  | topReactionsForTeam
  | topReactionsForUser
  | topChannelsForTeam
  | topChannelsForUser
  | topThreadsForTeam
  | topThreadsForUser
  | newTeamMembers
  deriving DecidableEq, Repr

/-- The handler function of a route. -/
def Handler.run : Handler → App → Context → Outcome
  | .topReactionsForTeam => getTopReactionsForTeamSince
  | .topReactionsForUser => getTopReactionsForUserSince
  | .topChannelsForTeam => getTopChannelsForTeamSince
  | .topChannelsForUser => getTopChannelsForUserSince
  | .topThreadsForTeam => getTopThreadsForTeamSince
  | .topThreadsForUser => getTopThreadsForUserSince
  | .newTeamMembers => getNewTeamMembersSince

/-- The error of a result, `nil` on success. -/
def errOf {α : Type} : Except AppError α → Option AppError
  | .error e => some e
  | .ok _ => none

/-- The error the data source returns to a ranked or listing query, and to the
series query; `none` when the query succeeds, and for every other call. -/
def App.queryError (app : App) : Call → Option AppError
  | .GetTopReactionsForTeamSince t u o => errOf (app.GetTopReactionsForTeamSince t u o)
  | .GetTopReactionsForUserSince u t o => errOf (app.GetTopReactionsForUserSince u t o)
  | .GetTopChannelsForTeamSince t u o => errOf (app.GetTopChannelsForTeamSince t u o)
  | .GetTopChannelsForUserSince u t o => errOf (app.GetTopChannelsForUserSince u t o)
  | .GetTopThreadsForTeamSince t u o => errOf (app.GetTopThreadsForTeamSince t u o)
  | .GetTopThreadsForUserSince t u o => errOf (app.GetTopThreadsForUserSince t u o)
  | .GetNewTeamMembersSince t o => errOf (app.GetNewTeamMembersSince t o)
  | .PostCountsByDuration ids st uid g loc => errOf (app.PostCountsByDuration ids st uid g loc)
  | _ => none

/-! ## A concrete set of collaborators -/

/-- A data-source error. -/
def storeError : AppError := ⟨"SqlStore", "app.insights.store_error", "", 500, none⟩

/-- A page of two channels. -/
def twoChannels : TopChannelList := ⟨false, [⟨"chanA", 5⟩, ⟨"chanB", 2⟩], none⟩

/-- Collaborators that let every request through and answer every query: the
user `guest1` is a guest, the user `nobody` is unknown, the team `secret` is one
the session may not view, and the series query fails for the user `broken`. -/
def demoApp : App where
  TimeRangeToday := "today"
  PermissionViewTeam := ⟨"view_team"⟩
  LicenseShortSkuProfessional := "professional"
  LicenseShortSkuEnterprise := "enterprise"
  IsValidId := fun s => s.length == 26
  StartOfDayForTimeRange := fun tr loc =>
    if tr == "today" then ⟨1000, loc⟩ else if tr == "7_day" then ⟨400, loc⟩ else ⟨0, loc⟩
  TimeRangeToNumberDays := fun tr => if tr == "7_day" then 7 else if tr == "28_day" then 28 else 1
  ToDailyPostCountViewModel := fun _ _ _ ids => some (ids.map (fun i => (i, [])))
  RequireTeamId := fun p =>
    if p.TeamId.length == 26 then none
    else some ⟨"Context", "api.context.invalid_url_param.app_error", "team_id", 400, none⟩
  SetInvalidURLParam := fun n =>
    ⟨"Context", "api.context.invalid_url_param.app_error", n, 400, none⟩
  SetPermissionError := fun p => ⟨"Permissions", "api.context.permissions.app_error", p.Id, 403, none⟩
  GetTeam := fun t => .ok ⟨t⟩
  SessionHasPermissionToTeam := fun _ t _ => t != "secretsecretsecretsecret00"
  GetUser := fun u =>
    if u == "nobody" then .error ⟨"GetUser", "app.user.missing_account.const", "", 404, none⟩
    else .ok ⟨u, ⟨"UTC"⟩, u == "guest1"⟩
  License := ⟨"professional"⟩
  GetTopReactionsForTeamSince := fun _ _ _ => .ok ⟨false, [⟨"smile", 3⟩]⟩
  GetTopReactionsForUserSince := fun _ _ _ => .ok ⟨false, [⟨"smile", 3⟩]⟩
  GetTopChannelsForTeamSince := fun _ _ _ => .ok twoChannels
  GetTopChannelsForUserSince := fun _ _ _ => .ok twoChannels
  GetTopThreadsForTeamSince := fun _ _ _ => .ok ⟨false, [⟨"post1", 4⟩]⟩
  GetTopThreadsForUserSince := fun _ _ _ => .ok ⟨false, [⟨"post1", 4⟩]⟩
  GetNewTeamMembersSince := fun _ _ => .ok (⟨false, [⟨"user9", 7⟩], 0⟩, 41)
  PostCountsByDuration := fun _ _ uid _ _ =>
    if uid == some "broken" then .error storeError else .ok [⟨"chanA", "2024-03-10", 5⟩]
  JsonMarshal := fun v =>
    match v with
    | .topReactions _ => .ok "reactions"
    | .topChannels l => .ok (String.intercalate "," l.ChannelIDs)
    | .topThreads _ => .ok "threads"
    | .newTeamMembers l => .ok (toString l.TotalCount)

/-- The same collaborators with a data source whose ranked and listing queries all fail. -/
def failingApp : App :=
  { demoApp with
    GetTopReactionsForTeamSince := fun _ _ _ => .error storeError
    GetTopReactionsForUserSince := fun _ _ _ => .error storeError
    GetTopChannelsForTeamSince := fun _ _ _ => .error storeError
    GetTopChannelsForUserSince := fun _ _ _ => .error storeError
    GetTopThreadsForTeamSince := fun _ _ _ => .error storeError
    GetTopThreadsForUserSince := fun _ _ _ => .error storeError
    GetNewTeamMembersSince := fun _ _ => .error storeError }

/-- A valid team id. -/
def teamOne : String := "teamteamteamteamteamteam01"

/-- A request of user `user1` for team `teamOne`, first page of ten, last seven days. -/
def demoRequest : Context :=
  ⟨⟨teamOne, "7_day", 0, 10⟩, ⟨"sess1", "user1"⟩, teamOne⟩

/-- A team id the session of the concrete collaborators may not view. -/
def secretTeam : String := "secretsecretsecretsecret00"

/-- The request of `demoRequest` for the team `secretTeam`. -/
def secretRequest : Context :=
  ⟨⟨secretTeam, "7_day", 0, 10⟩, ⟨"sess1", "user1"⟩, secretTeam⟩

/-- The request of `demoRequest` by the user `broken`, whose series query fails. -/
def brokenRequest : Context :=
  ⟨⟨teamOne, "7_day", 0, 10⟩, ⟨"sess2", "broken"⟩, teamOne⟩

/-- A request of the guest `guest1` without a `team_id` query parameter. -/
def guestRequestNoTeam : Context :=
  ⟨⟨"", "7_day", 0, 10⟩, ⟨"sess3", "guest1"⟩, ""⟩

/-- A request of the guest `guest1` with the `team_id` query parameter `teamOne`. -/
def guestRequestWithTeam : Context :=
  ⟨⟨"", "7_day", 0, 10⟩, ⟨"sess3", "guest1"⟩, teamOne⟩

/-- Modelled from the spec: the recognised time-range tokens, "`Today | Last7Days |
Last28Days | AllTime`", written as strings; the constants of package `model`
that name them are not in `insights.go`. -/
def recognisedTimeRanges : List String := ["today", "7_day", "28_day", "all_time"]

/-- The request of `demoRequest` with a time-range token that is not recognised. -/
def bogusRequest : Context :=
  ⟨⟨teamOne, "bogus", 0, 10⟩, ⟨"sess1", "user1"⟩, teamOne⟩

/-- The four handlers of the team routes. -/
def Handler.isTeamScoped : Handler → Bool
  | .topReactionsForTeam => true
  | .topChannelsForTeam => true
  | .topThreadsForTeam => true
  | .newTeamMembers => true
  | _ => false

/-- The two top-channel handlers. -/
def Handler.isTopChannels : Handler → Bool
  | .topChannelsForTeam => true
  | .topChannelsForUser => true
  | _ => false

/-! ## `postCountByDurationViewModel`: the empty page, the granularity, the single query -/

/-- On a non-empty page whose series query fails, the failure is the result. -/
theorem pcbd_error (app : App) (l : TopChannelList) (st : Time) (tr : String)
    (uid : Option String) (loc : Location) (e : AppError) (h : l.Items.length ≠ 0)
    (hq : app.PostCountsByDuration l.ChannelIDs st.UnixMilli uid
      (if (tr == app.TimeRangeToday) = true then PostCountGrouping.PostsByHour
        else PostCountGrouping.PostsByDay) loc = .error e) :
    postCountByDurationViewModel app l st tr uid loc =
      (none, some e, [Call.PostCountsByDuration l.ChannelIDs st.UnixMilli uid
        (if (tr == app.TimeRangeToday) = true then PostCountGrouping.PostsByHour
          else PostCountGrouping.PostsByDay) loc]) := by
  simp only [beq_iff_eq] at hq
  simp [postCountByDurationViewModel, h, hq]

/-- On a non-empty page whose series query succeeds, the result is the view model of its rows. -/
theorem pcbd_ok (app : App) (l : TopChannelList) (st : Time) (tr : String)
    (uid : Option String) (loc : Location) (rows : List DurationPostCount)
    (h : l.Items.length ≠ 0)
    (hq : app.PostCountsByDuration l.ChannelIDs st.UnixMilli uid
      (if (tr == app.TimeRangeToday) = true then PostCountGrouping.PostsByHour
        else PostCountGrouping.PostsByDay) loc = .ok rows) :
    postCountByDurationViewModel app l st tr uid loc =
      (app.ToDailyPostCountViewModel rows st (app.TimeRangeToNumberDays tr) l.ChannelIDs, none,
        [Call.PostCountsByDuration l.ChannelIDs st.UnixMilli uid
          (if (tr == app.TimeRangeToday) = true then PostCountGrouping.PostsByHour
            else PostCountGrouping.PostsByDay) loc]) := by
  simp only [beq_iff_eq] at hq
  simp [postCountByDurationViewModel, h, hq]

/-- The calls of `postCountByDurationViewModel` on a non-empty page: the one series query. -/
theorem pcbd_calls (app : App) (l : TopChannelList) (st : Time) (tr : String)
    (uid : Option String) (loc : Location) (h : l.Items.length ≠ 0) :
    (postCountByDurationViewModel app l st tr uid loc).2.2 =
      [Call.PostCountsByDuration l.ChannelIDs st.UnixMilli uid
        (if (tr == app.TimeRangeToday) = true then PostCountGrouping.PostsByHour
          else PostCountGrouping.PostsByDay) loc] := by
  cases hq : app.PostCountsByDuration l.ChannelIDs st.UnixMilli uid
      (if (tr == app.TimeRangeToday) = true then PostCountGrouping.PostsByHour
        else PostCountGrouping.PostsByDay) loc with
  | error e => rw [pcbd_error app l st tr uid loc e h hq]
  | ok rows => rw [pcbd_ok app l st tr uid loc rows h hq]

/-! ## The handlers, path by path -/

/-- The tail of the top-channel handlers, with `postCountByDurationViewModel` unfolded. -/
theorem attach_eq (app : App) (wh : String) (tc : TopChannelList) (st : Time) (tr : String)
    (uid : Option String) (loc : Location) (pre : List Call) :
    attachSeriesAndWrite app wh tc st tr uid loc pre =
      if tc.Items.length = 0 then
        marshalAndWrite app wh (.topChannels ⟨tc.HasNext, tc.Items, none⟩) pre
      else
        match app.PostCountsByDuration tc.ChannelIDs st.UnixMilli uid
          (if tr = app.TimeRangeToday then PostCountGrouping.PostsByHour
            else PostCountGrouping.PostsByDay) loc with
        | .error e => ⟨some e, [], pre ++ [Call.PostCountsByDuration tc.ChannelIDs st.UnixMilli uid
            (if tr = app.TimeRangeToday then PostCountGrouping.PostsByHour
              else PostCountGrouping.PostsByDay) loc]⟩
        | .ok rows =>
          marshalAndWrite app wh (.topChannels ⟨tc.HasNext, tc.Items,
            app.ToDailyPostCountViewModel rows st (app.TimeRangeToNumberDays tr) tc.ChannelIDs⟩)
            (pre ++ [Call.PostCountsByDuration tc.ChannelIDs st.UnixMilli uid
              (if tr = app.TimeRangeToday then PostCountGrouping.PostsByHour
                else PostCountGrouping.PostsByDay) loc]) := by
  by_cases h : tc.Items.length = 0
  · simp [attachSeriesAndWrite, postCountByDurationViewModel, h]
  · cases hq : app.PostCountsByDuration tc.ChannelIDs st.UnixMilli uid
        (if tr = app.TimeRangeToday then PostCountGrouping.PostsByHour
          else PostCountGrouping.PostsByDay) loc <;>
      simp [attachSeriesAndWrite, postCountByDurationViewModel, h, hq]

/-- A failed ranked query of `getTopReactionsForTeamSince` is its only one, ends the handler, and is `c.Err`. -/
theorem reactionsTeam_ranked_error (app : App) (c : Context) (call : Call) (e : AppError)
    (hmem : call ∈ (getTopReactionsForTeamSince app c).calls)
    (hr : call.isRanked = true) (he : app.queryError call = some e) :
    ((getTopReactionsForTeamSince app c).calls.filter Call.isRanked).length = 1
    ∧ (getTopReactionsForTeamSince app c).Err = some e
    ∧ (getTopReactionsForTeamSince app c).written = [] := by
  generalize hO : getTopReactionsForTeamSince app c = O at hmem ⊢
  unfold getTopReactionsForTeamSince at hO
  simp only [attach_eq, marshalAndWrite] at hO
  repeat' split at hO
  all_goals subst hO
  all_goals simp_all [Call.isRanked, App.queryError, errOf]
  all_goals
    try (rcases hmem with rfl | rfl | rfl | rfl | rfl | rfl | rfl | rfl <;>
      simp_all [Call.isRanked, App.queryError, errOf])

/-- A failed ranked query of `getTopReactionsForUserSince` is its only one, ends the handler, and is `c.Err`. -/
theorem reactionsUser_ranked_error (app : App) (c : Context) (call : Call) (e : AppError)
    (hmem : call ∈ (getTopReactionsForUserSince app c).calls)
    (hr : call.isRanked = true) (he : app.queryError call = some e) :
    ((getTopReactionsForUserSince app c).calls.filter Call.isRanked).length = 1
    ∧ (getTopReactionsForUserSince app c).Err = some e
    ∧ (getTopReactionsForUserSince app c).written = [] := by
  generalize hO : getTopReactionsForUserSince app c = O at hmem ⊢
  unfold getTopReactionsForUserSince at hO
  simp only [attach_eq, marshalAndWrite] at hO
  repeat' split at hO
  all_goals subst hO
  all_goals simp_all [Call.isRanked, App.queryError, errOf]
  all_goals
    try (rcases hmem with rfl | rfl | rfl | rfl | rfl | rfl | rfl | rfl <;>
      simp_all [Call.isRanked, App.queryError, errOf])

/-- A failed ranked query of `getTopChannelsForTeamSince` is its only one, ends the handler, and is `c.Err`. -/
theorem channelsTeam_ranked_error (app : App) (c : Context) (call : Call) (e : AppError)
    (hmem : call ∈ (getTopChannelsForTeamSince app c).calls)
    (hr : call.isRanked = true) (he : app.queryError call = some e) :
    ((getTopChannelsForTeamSince app c).calls.filter Call.isRanked).length = 1
    ∧ (getTopChannelsForTeamSince app c).Err = some e
    ∧ (getTopChannelsForTeamSince app c).written = [] := by
  generalize hO : getTopChannelsForTeamSince app c = O at hmem ⊢
  unfold getTopChannelsForTeamSince at hO
  simp only [attach_eq, marshalAndWrite] at hO
  repeat' split at hO
  all_goals subst hO
  all_goals simp_all [Call.isRanked, App.queryError, errOf]
  all_goals
    try (rcases hmem with rfl | rfl | rfl | rfl | rfl | rfl | rfl | rfl <;>
      simp_all [Call.isRanked, App.queryError, errOf])

/-- A failed ranked query of `getTopChannelsForUserSince` is its only one, ends the handler, and is `c.Err`. -/
theorem channelsUser_ranked_error (app : App) (c : Context) (call : Call) (e : AppError)
    (hmem : call ∈ (getTopChannelsForUserSince app c).calls)
    (hr : call.isRanked = true) (he : app.queryError call = some e) :
    ((getTopChannelsForUserSince app c).calls.filter Call.isRanked).length = 1
    ∧ (getTopChannelsForUserSince app c).Err = some e
    ∧ (getTopChannelsForUserSince app c).written = [] := by
  generalize hO : getTopChannelsForUserSince app c = O at hmem ⊢
  unfold getTopChannelsForUserSince at hO
  simp only [attach_eq, marshalAndWrite] at hO
  repeat' split at hO
  all_goals subst hO
  all_goals simp_all [Call.isRanked, App.queryError, errOf]
  all_goals
    try (rcases hmem with rfl | rfl | rfl | rfl | rfl | rfl | rfl | rfl <;>
      simp_all [Call.isRanked, App.queryError, errOf])

/-- A failed ranked query of `getTopThreadsForTeamSince` is its only one, ends the handler, and is `c.Err`. -/
theorem threadsTeam_ranked_error (app : App) (c : Context) (call : Call) (e : AppError)
    (hmem : call ∈ (getTopThreadsForTeamSince app c).calls)
    (hr : call.isRanked = true) (he : app.queryError call = some e) :
    ((getTopThreadsForTeamSince app c).calls.filter Call.isRanked).length = 1
    ∧ (getTopThreadsForTeamSince app c).Err = some e
    ∧ (getTopThreadsForTeamSince app c).written = [] := by
  generalize hO : getTopThreadsForTeamSince app c = O at hmem ⊢
  unfold getTopThreadsForTeamSince at hO
  simp only [attach_eq, marshalAndWrite] at hO
  repeat' split at hO
  all_goals subst hO
  all_goals simp_all [Call.isRanked, App.queryError, errOf]
  all_goals
    try (rcases hmem with rfl | rfl | rfl | rfl | rfl | rfl | rfl | rfl <;>
      simp_all [Call.isRanked, App.queryError, errOf])

/-- A failed ranked query of `getTopThreadsForUserSince` is its only one, ends the handler, and is `c.Err`. -/
theorem threadsUser_ranked_error (app : App) (c : Context) (call : Call) (e : AppError)
    (hmem : call ∈ (getTopThreadsForUserSince app c).calls)
    (hr : call.isRanked = true) (he : app.queryError call = some e) :
    ((getTopThreadsForUserSince app c).calls.filter Call.isRanked).length = 1
    ∧ (getTopThreadsForUserSince app c).Err = some e
    ∧ (getTopThreadsForUserSince app c).written = [] := by
  generalize hO : getTopThreadsForUserSince app c = O at hmem ⊢
  unfold getTopThreadsForUserSince at hO
  simp only [attach_eq, marshalAndWrite] at hO
  repeat' split at hO
  all_goals subst hO
  all_goals simp_all [Call.isRanked, App.queryError, errOf]
  all_goals
    try (rcases hmem with rfl | rfl | rfl | rfl | rfl | rfl | rfl | rfl <;>
      simp_all [Call.isRanked, App.queryError, errOf])

/-- A failed ranked query of `getNewTeamMembersSince` is its only one, ends the handler, and is `c.Err`. -/
theorem newMembers_ranked_error (app : App) (c : Context) (call : Call) (e : AppError)
    (hmem : call ∈ (getNewTeamMembersSince app c).calls)
    (hr : call.isRanked = true) (he : app.queryError call = some e) :
    ((getNewTeamMembersSince app c).calls.filter Call.isRanked).length = 1
    ∧ (getNewTeamMembersSince app c).Err = some e
    ∧ (getNewTeamMembersSince app c).written = [] := by
  generalize hO : getNewTeamMembersSince app c = O at hmem ⊢
  unfold getNewTeamMembersSince at hO
  simp only [attach_eq, marshalAndWrite] at hO
  repeat' split at hO
  all_goals subst hO
  all_goals simp_all [Call.isRanked, App.queryError, errOf]
  all_goals
    try (rcases hmem with rfl | rfl | rfl | rfl | rfl | rfl | rfl | rfl <;>
      simp_all [Call.isRanked, App.queryError, errOf])

/-- A failed series query of `getTopChannelsForTeamSince` ends the handler: it is `c.Err`, nothing is
marshalled and nothing is written. -/
theorem channelsTeam_series_error (app : App) (c : Context) (call : Call) (e : AppError)
    (hmem : call ∈ (getTopChannelsForTeamSince app c).calls)
    (hs : call.isSeries = true) (he : app.queryError call = some e) :
    (getTopChannelsForTeamSince app c).Err = some e
    ∧ (getTopChannelsForTeamSince app c).written = []
    ∧ (getTopChannelsForTeamSince app c).calls.filter Call.isMarshal = [] := by
  generalize hO : getTopChannelsForTeamSince app c = O at hmem ⊢
  unfold getTopChannelsForTeamSince at hO
  simp only [attach_eq, marshalAndWrite] at hO
  repeat' split at hO
  all_goals subst hO
  all_goals simp_all [Call.isSeries, Call.isMarshal, App.queryError, errOf]
  all_goals
    try (rcases hmem with rfl | rfl | rfl | rfl | rfl | rfl | rfl | rfl <;>
      simp_all [Call.isSeries, Call.isMarshal, App.queryError, errOf])

/-- A failed series query of `getTopChannelsForUserSince` ends the handler: it is `c.Err`, nothing is
marshalled and nothing is written. -/
theorem channelsUser_series_error (app : App) (c : Context) (call : Call) (e : AppError)
    (hmem : call ∈ (getTopChannelsForUserSince app c).calls)
    (hs : call.isSeries = true) (he : app.queryError call = some e) :
    (getTopChannelsForUserSince app c).Err = some e
    ∧ (getTopChannelsForUserSince app c).written = []
    ∧ (getTopChannelsForUserSince app c).calls.filter Call.isMarshal = [] := by
  generalize hO : getTopChannelsForUserSince app c = O at hmem ⊢
  unfold getTopChannelsForUserSince at hO
  simp only [attach_eq, marshalAndWrite] at hO
  repeat' split at hO
  all_goals subst hO
  all_goals simp_all [Call.isSeries, Call.isMarshal, App.queryError, errOf]
  all_goals
    try (rcases hmem with rfl | rfl | rfl | rfl | rfl | rfl | rfl | rfl <;>
      simp_all [Call.isSeries, Call.isMarshal, App.queryError, errOf])

/-- Without `PermissionViewTeam` on the team, `getTopReactionsForTeamSince` ends in an error before any query. -/
theorem reactionsTeam_no_permission (app : App) (c : Context)
    (hperm : ∀ team, app.GetTeam c.Params.TeamId = .ok team →
      app.SessionHasPermissionToTeam c.Session team.Id app.PermissionViewTeam = false) :
    ((getTopReactionsForTeamSince app c).Err.isSome = true)
    ∧ (getTopReactionsForTeamSince app c).calls.filter (fun call => call.isRanked || call.isSeries) = []
    ∧ (getTopReactionsForTeamSince app c).written = [] := by
  generalize hO : getTopReactionsForTeamSince app c = O
  unfold getTopReactionsForTeamSince at hO
  simp only [attach_eq, marshalAndWrite] at hO
  repeat' split at hO
  all_goals subst hO
  all_goals simp_all [Call.isRanked, Call.isSeries]

/-- Without `PermissionViewTeam` on the team, `getTopChannelsForTeamSince` ends in an error before any query. -/
theorem channelsTeam_no_permission (app : App) (c : Context)
    (hperm : ∀ team, app.GetTeam c.Params.TeamId = .ok team →
      app.SessionHasPermissionToTeam c.Session team.Id app.PermissionViewTeam = false) :
    ((getTopChannelsForTeamSince app c).Err.isSome = true)
    ∧ (getTopChannelsForTeamSince app c).calls.filter (fun call => call.isRanked || call.isSeries) = []
    ∧ (getTopChannelsForTeamSince app c).written = [] := by
  generalize hO : getTopChannelsForTeamSince app c = O
  unfold getTopChannelsForTeamSince at hO
  simp only [attach_eq, marshalAndWrite] at hO
  repeat' split at hO
  all_goals subst hO
  all_goals simp_all [Call.isRanked, Call.isSeries]

/-- Without `PermissionViewTeam` on the team, `getTopThreadsForTeamSince` ends in an error before any query. -/
theorem threadsTeam_no_permission (app : App) (c : Context)
    (hperm : ∀ team, app.GetTeam c.Params.TeamId = .ok team →
      app.SessionHasPermissionToTeam c.Session team.Id app.PermissionViewTeam = false) :
    ((getTopThreadsForTeamSince app c).Err.isSome = true)
    ∧ (getTopThreadsForTeamSince app c).calls.filter (fun call => call.isRanked || call.isSeries) = []
    ∧ (getTopThreadsForTeamSince app c).written = [] := by
  generalize hO : getTopThreadsForTeamSince app c = O
  unfold getTopThreadsForTeamSince at hO
  simp only [attach_eq, marshalAndWrite] at hO
  repeat' split at hO
  all_goals subst hO
  all_goals simp_all [Call.isRanked, Call.isSeries]

/-- Without `PermissionViewTeam` on the team, `getNewTeamMembersSince` ends in an error before any query. -/
theorem newMembers_no_permission (app : App) (c : Context)
    (hperm : ∀ team, app.GetTeam c.Params.TeamId = .ok team →
      app.SessionHasPermissionToTeam c.Session team.Id app.PermissionViewTeam = false) :
    ((getNewTeamMembersSince app c).Err.isSome = true)
    ∧ (getNewTeamMembersSince app c).calls.filter (fun call => call.isRanked || call.isSeries) = []
    ∧ (getNewTeamMembersSince app c).written = [] := by
  generalize hO : getNewTeamMembersSince app c = O
  unfold getNewTeamMembersSince at hO
  simp only [attach_eq, marshalAndWrite] at hO
  repeat' split at hO
  all_goals subst hO
  all_goals simp_all [Call.isRanked, Call.isSeries]

/-- When `getTopChannelsForTeamSince` issues the series query, the ranked query and the series query
have the start of the one `StartOfDayForTimeRange` call. -/
theorem channelsTeam_same_window (app : App) (c : Context) (user : User)
    (ids : List String) (st : Int) (uid : Option String) (g : PostCountGrouping) (loc : Location)
    (hu : app.GetUser c.Session.UserId = .ok user)
    (hmem : Call.PostCountsByDuration ids st uid g loc ∈ (getTopChannelsForTeamSince app c).calls) :
    (getTopChannelsForTeamSince app c).calls.filter Call.isStartOfDay
        = [Call.StartOfDayForTimeRange c.Params.TimeRange user.GetTimezoneLocation]
    ∧ (getTopChannelsForTeamSince app c).calls.filter Call.isRanked
        = [Call.GetTopChannelsForTeamSince c.Params.TeamId c.Session.UserId
            ⟨(app.StartOfDayForTimeRange c.Params.TimeRange user.GetTimezoneLocation).UnixMilli,
              c.Params.Page, c.Params.PerPage⟩]
    ∧ (getTopChannelsForTeamSince app c).calls.filter Call.isSeries = [Call.PostCountsByDuration ids st uid g loc]
    ∧ (∃ page, app.GetTopChannelsForTeamSince c.Params.TeamId c.Session.UserId
          ⟨(app.StartOfDayForTimeRange c.Params.TimeRange user.GetTimezoneLocation).UnixMilli,
            c.Params.Page, c.Params.PerPage⟩ = .ok page
        ∧ page.Items.length ≠ 0 ∧ ids = page.ChannelIDs)
    ∧ st = (app.StartOfDayForTimeRange c.Params.TimeRange user.GetTimezoneLocation).UnixMilli
    ∧ loc = user.GetTimezoneLocation
    ∧ uid = none
    ∧ (g = PostCountGrouping.PostsByHour ↔ c.Params.TimeRange = app.TimeRangeToday)
    ∧ (g = PostCountGrouping.PostsByDay ↔ c.Params.TimeRange ≠ app.TimeRangeToday) := by
  generalize hO : getTopChannelsForTeamSince app c = O at hmem ⊢
  unfold getTopChannelsForTeamSince at hO
  simp only [attach_eq, marshalAndWrite] at hO
  repeat' split at hO
  all_goals subst hO
  all_goals simp_all [Call.isRanked, Call.isSeries, Call.isStartOfDay]

/-- When `getTopChannelsForUserSince` issues the series query, the ranked query and the series query
have the start of the one `StartOfDayForTimeRange` call. -/
theorem channelsUser_same_window (app : App) (c : Context) (user : User)
    (ids : List String) (st : Int) (uid : Option String) (g : PostCountGrouping) (loc : Location)
    (hu : app.GetUser c.Session.UserId = .ok user)
    (hmem : Call.PostCountsByDuration ids st uid g loc ∈ (getTopChannelsForUserSince app c).calls) :
    (getTopChannelsForUserSince app c).calls.filter Call.isStartOfDay
        = [Call.StartOfDayForTimeRange c.Params.TimeRange user.GetTimezoneLocation]
    ∧ (getTopChannelsForUserSince app c).calls.filter Call.isRanked
        = [Call.GetTopChannelsForUserSince c.Session.UserId c.queryTeamId
            ⟨(app.StartOfDayForTimeRange c.Params.TimeRange user.GetTimezoneLocation).UnixMilli,
              c.Params.Page, c.Params.PerPage⟩]
    ∧ (getTopChannelsForUserSince app c).calls.filter Call.isSeries = [Call.PostCountsByDuration ids st uid g loc]
    ∧ (∃ page, app.GetTopChannelsForUserSince c.Session.UserId c.queryTeamId
          ⟨(app.StartOfDayForTimeRange c.Params.TimeRange user.GetTimezoneLocation).UnixMilli,
            c.Params.Page, c.Params.PerPage⟩ = .ok page
        ∧ page.Items.length ≠ 0 ∧ ids = page.ChannelIDs)
    ∧ st = (app.StartOfDayForTimeRange c.Params.TimeRange user.GetTimezoneLocation).UnixMilli
    ∧ loc = user.GetTimezoneLocation
    ∧ uid = some c.Session.UserId
    ∧ (g = PostCountGrouping.PostsByHour ↔ c.Params.TimeRange = app.TimeRangeToday)
    ∧ (g = PostCountGrouping.PostsByDay ↔ c.Params.TimeRange ≠ app.TimeRangeToday) := by
  generalize hO : getTopChannelsForUserSince app c = O at hmem ⊢
  unfold getTopChannelsForUserSince at hO
  simp only [attach_eq, marshalAndWrite] at hO
  repeat' split at hO
  all_goals subst hO
  all_goals simp_all [Call.isRanked, Call.isSeries, Call.isStartOfDay]

/-- With a `team_id` query parameter, `getTopThreadsForUserSince` never serves a
guest: it ends with `c.Err` set, without a ranked query and without a response
body; the error is the permission error once the id is valid, the team is found
and the license is sufficient. -/
theorem threadsUser_guest_with_team_id_rejected (app : App) (c : Context) (user : User)
    (hu : app.GetUser c.Session.UserId = .ok user) (hg : user.IsGuest = true)
    (ht : c.queryTeamId ≠ "") :
    (getTopThreadsForUserSince app c).Err.isSome = true
    ∧ (getTopThreadsForUserSince app c).calls.filter Call.isRanked = []
    ∧ (getTopThreadsForUserSince app c).written = []
    ∧ (∀ team, app.IsValidId c.queryTeamId = true → app.GetTeam c.queryTeamId = .ok team →
        licenseTooLow app = false →
        (getTopThreadsForUserSince app c).Err
          = some (app.SetPermissionError app.PermissionViewTeam)) := by
  generalize hO : getTopThreadsForUserSince app c = O
  unfold getTopThreadsForUserSince at hO
  simp only [marshalAndWrite, hu] at hO
  repeat' split at hO
  all_goals subst hO
  all_goals simp_all [Call.isRanked]

/-! ## The claims -/

/-- C1: on a page with zero items `postCountByDurationViewModel` returns the `nil`
(empty) series mapping and no error, and calls no collaborator at all, whatever
start time, time-range token, user id and location it is given. -/
theorem C1_empty_page_no_query (app : App) (topChannelList : TopChannelList)
    (startTime : Time) (timeRange : String) (userID : Option String) (location : Location)
    (h : topChannelList.Items.length = 0) :
    (postCountByDurationViewModel app topChannelList startTime timeRange userID location).1 = none
    ∧ (postCountByDurationViewModel app topChannelList startTime timeRange userID location).1.len
        = 0
    ∧ (postCountByDurationViewModel app topChannelList startTime timeRange userID location).2.1
        = none
    ∧ (postCountByDurationViewModel app topChannelList startTime timeRange userID location).2.2
        = [] := by
  simp [postCountByDurationViewModel, h, ChannelPostCountByDuration.len]

/-- Witness of C1: the empty page, on the concrete collaborators. -/
theorem C1_empty_page_no_query_witness :
    (⟨false, [], none⟩ : TopChannelList).Items.length = 0
    ∧ (postCountByDurationViewModel demoApp ⟨false, [], none⟩ ⟨400, ⟨"UTC"⟩⟩ "7_day"
        (some "user1") ⟨"UTC"⟩).2.2 = [] :=
  ⟨rfl, (C1_empty_page_no_query demoApp ⟨false, [], none⟩ ⟨400, ⟨"UTC"⟩⟩ "7_day"
    (some "user1") ⟨"UTC"⟩ rfl).2.2.2⟩

/-- C2: on a non-empty page the series query is issued with a granularity that
is hourly exactly when the token is `model.TimeRangeToday`, and daily for every
other token. -/
theorem C2_granularity (app : App) (topChannelList : TopChannelList)
    (startTime : Time) (timeRange : String) (userID : Option String) (location : Location)
    (h : topChannelList.Items.length ≠ 0) :
    ∃ grouping,
      (postCountByDurationViewModel app topChannelList startTime timeRange userID location).2.2
        = [Call.PostCountsByDuration topChannelList.ChannelIDs startTime.UnixMilli userID
            grouping location]
      ∧ (grouping = PostCountGrouping.PostsByHour ↔ timeRange = app.TimeRangeToday)
      ∧ (grouping = PostCountGrouping.PostsByDay ↔ timeRange ≠ app.TimeRangeToday) := by
  by_cases ht : timeRange = app.TimeRangeToday
  · refine ⟨PostCountGrouping.PostsByHour, ?_, by simp [ht], by simp [ht]⟩
    simp only [postCountByDurationViewModel, ht]
    simp [h]
    split <;> rfl
  · refine ⟨PostCountGrouping.PostsByDay, ?_, by simp [ht], by simp [ht]⟩
    simp only [postCountByDurationViewModel]
    simp [h, ht]
    split <;> rfl

/-- Witness of C2: the page of two channels with the token of the last seven days. -/
theorem C2_granularity_witness :
    twoChannels.Items.length ≠ 0
    ∧ ∃ grouping,
      (postCountByDurationViewModel demoApp twoChannels ⟨400, ⟨"UTC"⟩⟩ "7_day" none ⟨"UTC"⟩).2.2
        = [Call.PostCountsByDuration twoChannels.ChannelIDs (400 : Int) none grouping ⟨"UTC"⟩]
      ∧ (grouping = PostCountGrouping.PostsByHour ↔ "7_day" = demoApp.TimeRangeToday)
      ∧ (grouping = PostCountGrouping.PostsByDay ↔ "7_day" ≠ demoApp.TimeRangeToday) :=
  ⟨by decide, C2_granularity demoApp twoChannels ⟨400, ⟨"UTC"⟩⟩ "7_day" none ⟨"UTC"⟩ (by decide)⟩

/-- C3: on a non-empty page `postCountByDurationViewModel` makes exactly one
call, the series query, whatever the number of channels; the channel ids of
that call are the ids of the items of the page it was handed, and on success
the result is the view model built from the rows of that query and these same
ids. -/
theorem C3_single_batched_query (app : App) (topChannelList : TopChannelList)
    (startTime : Time) (timeRange : String) (userID : Option String) (location : Location)
    (h : topChannelList.Items.length ≠ 0) :
    ((postCountByDurationViewModel app topChannelList startTime timeRange userID
        location).2.2.filter Call.isSeries).length = 1
    ∧ (∃ grouping,
        (postCountByDurationViewModel app topChannelList startTime timeRange userID location).2.2
          = [Call.PostCountsByDuration (topChannelList.Items.map (fun item => item.ID))
              startTime.UnixMilli userID grouping location]
        ∧ ∀ rows, app.PostCountsByDuration (topChannelList.Items.map (fun item => item.ID))
              startTime.UnixMilli userID grouping location = .ok rows →
            (postCountByDurationViewModel app topChannelList startTime timeRange userID
                location).1
              = app.ToDailyPostCountViewModel rows startTime (app.TimeRangeToNumberDays timeRange)
                  (topChannelList.Items.map (fun item => item.ID))) := by
  refine ⟨?_, _, pcbd_calls app topChannelList startTime timeRange userID location h, ?_⟩
  · rw [pcbd_calls app topChannelList startTime timeRange userID location h]
    rfl
  · intro rows hq
    rw [pcbd_ok app topChannelList startTime timeRange userID location rows h hq]
    rfl

/-- Witness of C3: the page of two channels. -/
theorem C3_single_batched_query_witness :
    twoChannels.Items.length ≠ 0
    ∧ ((postCountByDurationViewModel demoApp twoChannels ⟨400, ⟨"UTC"⟩⟩ "7_day" none
        ⟨"UTC"⟩).2.2.filter Call.isSeries).length = 1 :=
  ⟨by decide,
    (C3_single_batched_query demoApp twoChannels ⟨400, ⟨"UTC"⟩⟩ "7_day" none ⟨"UTC"⟩
      (by decide)).1⟩

/-- C4: in the two top-channel handlers, when the series query returns an error
(which happens only after the one ranking query has succeeded with a non-empty
page), `c.Err` is exactly that error, nothing is marshalled and no response body
is written; and `postCountByDurationViewModel`, on any non-empty page and
arguments that give this series query, returns that error with a `nil` series. -/
theorem C4_series_error_fails_whole_call (h : Handler) (app : App) (c : Context) (call : Call)
    (e : AppError) (hh : h.isTopChannels = true) (hmem : call ∈ (h.run app c).calls)
    (hs : call.isSeries = true) (he : app.queryError call = some e) :
    (h.run app c).Err = some e
    ∧ (h.run app c).written = []
    ∧ (h.run app c).calls.filter Call.isMarshal = []
    ∧ ((h.run app c).calls.filter Call.isRanked).length = 1
    ∧ (∀ rc ∈ (h.run app c).calls, rc.isRanked = true → app.queryError rc = none)
    ∧ ∀ (l : TopChannelList) (st : Time) (tr : String) (uid : Option String) (loc : Location),
        l.Items.length ≠ 0 →
        call = Call.PostCountsByDuration l.ChannelIDs st.UnixMilli uid
          (if (tr == app.TimeRangeToday) = true then PostCountGrouping.PostsByHour
            else PostCountGrouping.PostsByDay) loc →
        postCountByDurationViewModel app l st tr uid loc = (none, some e, [call]) := by
  have hlast : ∀ (l : TopChannelList) (st : Time) (tr : String) (uid : Option String)
      (loc : Location), l.Items.length ≠ 0 →
      call = Call.PostCountsByDuration l.ChannelIDs st.UnixMilli uid
        (if (tr == app.TimeRangeToday) = true then PostCountGrouping.PostsByHour
          else PostCountGrouping.PostsByDay) loc →
      postCountByDurationViewModel app l st tr uid loc = (none, some e, [call]) := by
    intro l st tr uid loc hl hc
    subst hc
    cases hq : app.PostCountsByDuration l.ChannelIDs st.UnixMilli uid
        (if (tr == app.TimeRangeToday) = true then PostCountGrouping.PostsByHour
          else PostCountGrouping.PostsByDay) loc with
    | error e2 =>
      simp only [App.queryError] at he
      rw [hq] at he
      have he2 : e2 = e := Option.some.inj he
      subst he2
      exact pcbd_error app l st tr uid loc e2 hl hq
    | ok rows =>
      simp only [App.queryError] at he
      rw [hq] at he
      cases he
  cases call <;> simp [Call.isSeries] at hs
  rename_i ids st uid g loc
  cases h <;> simp [Handler.isTopChannels] at hh
  · obtain ⟨h1, h2, h3⟩ := channelsTeam_series_error app c _ e hmem rfl he
    cases hu : app.GetUser c.Session.UserId with
    | error e2 =>
      exfalso
      simp [Handler.run, getTopChannelsForTeamSince, hu] at hmem
      repeat' split at hmem
      all_goals simp at hmem
    | ok user =>
      obtain ⟨-, k2, -, ⟨page, k4, -, -⟩, -⟩ := channelsTeam_same_window app c user ids st uid g loc hu hmem
      refine ⟨h1, h2, h3, by simp [Handler.run, k2], ?_, hlast⟩
      intro rc hrc hr
      have hin : rc ∈ (getTopChannelsForTeamSince app c).calls.filter Call.isRanked :=
        List.mem_filter.mpr ⟨hrc, hr⟩
      rw [k2] at hin
      simp at hin
      subst hin
      simp [App.queryError, errOf, k4]
  · obtain ⟨h1, h2, h3⟩ := channelsUser_series_error app c _ e hmem rfl he
    cases hu : app.GetUser c.Session.UserId with
    | error e2 =>
      exfalso
      simp [Handler.run, getTopChannelsForUserSince, hu] at hmem
      repeat' split at hmem
      all_goals simp at hmem
    | ok user =>
      obtain ⟨-, k2, -, ⟨page, k4, -, -⟩, -⟩ := channelsUser_same_window app c user ids st uid g loc hu hmem
      refine ⟨h1, h2, h3, by simp [Handler.run, k2], ?_, hlast⟩
      intro rc hrc hr
      have hin : rc ∈ (getTopChannelsForUserSince app c).calls.filter Call.isRanked :=
        List.mem_filter.mpr ⟨hrc, hr⟩
      rw [k2] at hin
      simp at hin
      subst hin
      simp [App.queryError, errOf, k4]

/-- Witness of C4: the user `broken`, whose series query fails after the ranking succeeded. -/
theorem C4_series_error_fails_whole_call_witness :
    Call.PostCountsByDuration ["chanA", "chanB"] 400 (some "broken")
        PostCountGrouping.PostsByDay ⟨"UTC"⟩
      ∈ (Handler.topChannelsForUser.run demoApp brokenRequest).calls
    ∧ (Handler.topChannelsForUser.run demoApp brokenRequest).Err = some storeError
    ∧ (Handler.topChannelsForUser.run demoApp brokenRequest).written = [] :=
  ⟨by decide,
    (C4_series_error_fails_whole_call Handler.topChannelsForUser demoApp brokenRequest
      (Call.PostCountsByDuration ["chanA", "chanB"] 400 (some "broken")
        PostCountGrouping.PostsByDay ⟨"UTC"⟩) storeError rfl (by decide) rfl (by decide)).1,
    (C4_series_error_fails_whole_call Handler.topChannelsForUser demoApp brokenRequest
      (Call.PostCountsByDuration ["chanA", "chanB"] 400 (some "broken")
        PostCountGrouping.PostsByDay ⟨"UTC"⟩) storeError rfl (by decide) rfl (by decide)).2.1⟩

/-- C5: in each of the seven handlers, a ranked or listing query of the data
source that returns an error was made exactly once, the handler ends with
`c.Err` equal to that error, unchanged, and nothing is written to the response. -/
theorem C5_ranked_error_propagates (h : Handler) (app : App) (c : Context) (call : Call)
    (e : AppError) (hmem : call ∈ (h.run app c).calls) (hr : call.isRanked = true)
    (he : app.queryError call = some e) :
    ((h.run app c).calls.filter Call.isRanked).length = 1
    ∧ (h.run app c).Err = some e
    ∧ (h.run app c).written = [] := by
  cases h
  · exact reactionsTeam_ranked_error app c call e hmem hr he
  · exact reactionsUser_ranked_error app c call e hmem hr he
  · exact channelsTeam_ranked_error app c call e hmem hr he
  · exact channelsUser_ranked_error app c call e hmem hr he
  · exact threadsTeam_ranked_error app c call e hmem hr he
  · exact threadsUser_ranked_error app c call e hmem hr he
  · exact newMembers_ranked_error app c call e hmem hr he

/-- Witness of C5: the team's new members, on a data source whose listing query fails. -/
theorem C5_ranked_error_propagates_witness :
    Call.GetNewTeamMembersSince teamOne ⟨400, 0, 10⟩
        ∈ (Handler.newTeamMembers.run failingApp demoRequest).calls
    ∧ failingApp.queryError (Call.GetNewTeamMembersSince teamOne ⟨400, 0, 10⟩) = some storeError
    ∧ ((Handler.newTeamMembers.run failingApp demoRequest).calls.filter Call.isRanked).length = 1
    ∧ (Handler.newTeamMembers.run failingApp demoRequest).Err = some storeError
    ∧ (Handler.newTeamMembers.run failingApp demoRequest).written = [] :=
  ⟨by decide, by decide,
    C5_ranked_error_propagates Handler.newTeamMembers failingApp demoRequest
      (Call.GetNewTeamMembersSince teamOne ⟨400, 0, 10⟩) storeError (by decide) rfl (by decide)⟩

/-- C6, the claim as stated fails: with the token `bogus`, which is not a
recognised time-range token, `getTopChannelsForTeamSince` reports no error,
issues the ranked query and the series query, and writes the response; and
`postCountByDurationViewModel` returns a series and no error after issuing the
series query with daily granularity. -/
theorem C6_unrecognised_token_counterexample :
    bogusRequest.Params.TimeRange ∉ recognisedTimeRanges
    ∧ (getTopChannelsForTeamSince demoApp bogusRequest).Err = none
    ∧ (getTopChannelsForTeamSince demoApp bogusRequest).calls.filter Call.isRanked
        = [Call.GetTopChannelsForTeamSince teamOne "user1" ⟨0, 0, 10⟩]
    ∧ (getTopChannelsForTeamSince demoApp bogusRequest).calls.filter Call.isSeries
        = [Call.PostCountsByDuration ["chanA", "chanB"] 0 none PostCountGrouping.PostsByDay
            ⟨"UTC"⟩]
    ∧ (getTopChannelsForTeamSince demoApp bogusRequest).written = ["chanA,chanB"]
    ∧ postCountByDurationViewModel demoApp twoChannels ⟨0, ⟨"UTC"⟩⟩ "bogus" none ⟨"UTC"⟩
        = (some [("chanA", []), ("chanB", [])], none,
            [Call.PostCountsByDuration ["chanA", "chanB"] 0 none PostCountGrouping.PostsByDay
              ⟨"UTC"⟩]) := by
  refine ⟨by decide, by decide, by decide, by decide, by decide, by decide⟩

/-- C6, amended: a time-range token is never rejected.  For every token other
than `model.TimeRangeToday`, recognised or not, `postCountByDurationViewModel`
on a non-empty page issues exactly the one series query, with daily
granularity, and its error is the error of that query, if any; and
`getTopChannelsForTeamSince`, for every token, once the team-id check, the team
lookup, the permission check and the user lookup pass, issues the ranked query
with the start `StartOfDayForTimeRange` gives for that token. -/
theorem C6_unrecognised_token_is_queried :
    (∀ (app : App) (l : TopChannelList) (st : Time) (tr : String) (uid : Option String)
        (loc : Location), l.Items.length ≠ 0 → tr ≠ app.TimeRangeToday →
        (postCountByDurationViewModel app l st tr uid loc).2.2
            = [Call.PostCountsByDuration l.ChannelIDs st.UnixMilli uid
                PostCountGrouping.PostsByDay loc]
        ∧ (postCountByDurationViewModel app l st tr uid loc).2.1
            = errOf (app.PostCountsByDuration l.ChannelIDs st.UnixMilli uid
                PostCountGrouping.PostsByDay loc))
    ∧ (∀ (app : App) (c : Context) (team : Team) (user : User),
        app.RequireTeamId c.Params = none →
        app.GetTeam c.Params.TeamId = .ok team →
        app.SessionHasPermissionToTeam c.Session team.Id app.PermissionViewTeam = true →
        app.GetUser c.Session.UserId = .ok user →
        (getTopChannelsForTeamSince app c).calls.filter Call.isRanked
          = [Call.GetTopChannelsForTeamSince c.Params.TeamId c.Session.UserId
              ⟨(app.StartOfDayForTimeRange c.Params.TimeRange
                  user.GetTimezoneLocation).UnixMilli, c.Params.Page, c.Params.PerPage⟩]) := by
  constructor
  · intro app l st tr uid loc hl ht
    cases hq : app.PostCountsByDuration l.ChannelIDs st.UnixMilli uid
        PostCountGrouping.PostsByDay loc <;>
      simp [postCountByDurationViewModel, hl, ht, hq, errOf]
  · intro app c team user h1 h2 h3 h4
    generalize hO : getTopChannelsForTeamSince app c = O
    unfold getTopChannelsForTeamSince at hO
    simp only [attach_eq, marshalAndWrite, h1, h2, h3, h4] at hO
    repeat' split at hO
    all_goals subst hO
    all_goals simp_all [Call.isRanked]

/-- Witness of C6, amended: the token `bogus` on the page of two channels. -/
theorem C6_unrecognised_token_is_queried_witness :
    twoChannels.Items.length ≠ 0 ∧ "bogus" ≠ demoApp.TimeRangeToday
    ∧ (postCountByDurationViewModel demoApp twoChannels ⟨0, ⟨"UTC"⟩⟩ "bogus" none ⟨"UTC"⟩).2.2
        = [Call.PostCountsByDuration twoChannels.ChannelIDs (0 : Int) none
            PostCountGrouping.PostsByDay ⟨"UTC"⟩] :=
  ⟨by decide, by decide,
    (C6_unrecognised_token_is_queried.1 demoApp twoChannels ⟨0, ⟨"UTC"⟩⟩ "bogus" none ⟨"UTC"⟩
      (by decide) (by decide)).1⟩

/-- C7: when the team-id check, the team lookup, the permission check, the user
lookup and `App.GetNewTeamMembersSince` all succeed, `getNewTeamMembersSince`
marshals exactly one value: the list the listing query returned, with its items
unchanged and its `TotalCount` set to the separate count the data source
returned, whatever the page and page size; when marshalling succeeds, that is
the body written. -/
theorem C7_total_count (app : App) (c : Context) (team : Team) (user : User)
    (ntms : NewTeamMembersList) (count : Int)
    (h1 : app.RequireTeamId c.Params = none)
    (h2 : app.GetTeam c.Params.TeamId = .ok team)
    (h3 : app.SessionHasPermissionToTeam c.Session team.Id app.PermissionViewTeam = true)
    (h4 : app.GetUser c.Session.UserId = .ok user)
    (h5 : app.GetNewTeamMembersSince c.Params.TeamId
      ⟨(app.StartOfDayForTimeRange c.Params.TimeRange user.GetTimezoneLocation).UnixMilli,
        c.Params.Page, c.Params.PerPage⟩ = .ok (ntms, count)) :
    (∃ l : NewTeamMembersList,
      (getNewTeamMembersSince app c).calls.filter Call.isMarshal
          = [Call.JsonMarshal (.newTeamMembers l)]
      ∧ l.TotalCount = count ∧ l.Items = ntms.Items ∧ l.HasNext = ntms.HasNext
      ∧ ∀ js, app.JsonMarshal (.newTeamMembers l) = .ok js →
          (getNewTeamMembersSince app c).written = [js]
          ∧ (getNewTeamMembersSince app c).Err = none) := by
  refine ⟨⟨ntms.HasNext, ntms.Items, count⟩, ?_, rfl, rfl, rfl, ?_⟩
  · cases hj : app.JsonMarshal (.newTeamMembers ⟨ntms.HasNext, ntms.Items, count⟩) <;>
      simp [getNewTeamMembersSince, h1, h2, h3, h4, h5, hj, Call.isMarshal]
  · intro js hjs
    simp [getNewTeamMembersSince, h1, h2, h3, h4, h5, hjs]

/-- Witness of C7: the concrete data source counts 41 new members and lists one. -/
theorem C7_total_count_witness :
    (getNewTeamMembersSince demoApp demoRequest).written = ["41"]
    ∧ ∃ l : NewTeamMembersList,
      (getNewTeamMembersSince demoApp demoRequest).calls.filter Call.isMarshal
          = [Call.JsonMarshal (.newTeamMembers l)]
      ∧ l.TotalCount = 41 ∧ l.Items = [⟨"user9", 7⟩] ∧ l.HasNext = false
      ∧ ∀ js, demoApp.JsonMarshal (.newTeamMembers l) = .ok js →
          (getNewTeamMembersSince demoApp demoRequest).written = [js]
          ∧ (getNewTeamMembersSince demoApp demoRequest).Err = none :=
  ⟨by decide,
    C7_total_count demoApp demoRequest ⟨teamOne⟩ ⟨"user1", ⟨"UTC"⟩, false⟩
      ⟨false, [⟨"user9", 7⟩], 0⟩ 41 rfl rfl rfl rfl rfl⟩

/-- C8, what the code does: for a guest without a `team_id` query parameter
`getTopThreadsForUserSince` makes no permission check; after the user lookup it
issues the ranked query `App.GetTopThreadsForUserSince`, and when that query and
the marshalling succeed it writes the response and leaves `c.Err` unset.  That
the user is a guest plays no part on this path. -/
theorem C8_guest_without_team_id_is_served (app : App) (c : Context) (user : User)
    (topThreads : TopThreadList) (js : String)
    (hu : app.GetUser c.Session.UserId = .ok user) (hg : user.IsGuest = true)
    (ht : c.queryTeamId = "")
    (hq : app.GetTopThreadsForUserSince "" c.Session.UserId
      ⟨(app.StartOfDayForTimeRange c.Params.TimeRange user.GetTimezoneLocation).UnixMilli,
        c.Params.Page, c.Params.PerPage⟩ = .ok topThreads)
    (hj : app.JsonMarshal (.topThreads topThreads) = .ok js) :
    getTopThreadsForUserSince app c =
      ⟨none, [js],
        [Call.GetUser c.Session.UserId,
          Call.StartOfDayForTimeRange c.Params.TimeRange user.GetTimezoneLocation,
          Call.GetTopThreadsForUserSince "" c.Session.UserId
            ⟨(app.StartOfDayForTimeRange c.Params.TimeRange user.GetTimezoneLocation).UnixMilli,
              c.Params.Page, c.Params.PerPage⟩,
          Call.JsonMarshal (.topThreads topThreads)]⟩ := by
  simp [getTopThreadsForUserSince, marshalAndWrite, hu, ht, hq, hj]

/-- Witness of C8: the guest `guest1` asks for the top threads without a team id and is served. -/
theorem C8_guest_without_team_id_is_served_witness :
    (⟨"guest1", ⟨"UTC"⟩, true⟩ : User).IsGuest = true
    ∧ guestRequestNoTeam.queryTeamId = ""
    ∧ getTopThreadsForUserSince demoApp guestRequestNoTeam =
      ⟨none, ["threads"],
        [Call.GetUser "guest1", Call.StartOfDayForTimeRange "7_day" ⟨"UTC"⟩,
          Call.GetTopThreadsForUserSince "" "guest1" ⟨400, 0, 10⟩,
          Call.JsonMarshal (.topThreads ⟨false, [⟨"post1", 4⟩]⟩)]⟩ :=
  ⟨rfl, rfl,
    C8_guest_without_team_id_is_served demoApp guestRequestNoTeam ⟨"guest1", ⟨"UTC"⟩, true⟩
      ⟨false, [⟨"post1", 4⟩]⟩ "threads" rfl rfl rfl rfl rfl⟩

/-- C9: in each of the four team-scoped handlers, when the session lacks
`PermissionViewTeam` on the requested team, the handler ends with `c.Err` set,
issues neither a ranked or listing query nor a series query, and writes no
response body. -/
theorem C9_no_permission_no_query (h : Handler) (app : App) (c : Context)
    (hh : h.isTeamScoped = true)
    (hperm : ∀ team, app.GetTeam c.Params.TeamId = .ok team →
      app.SessionHasPermissionToTeam c.Session team.Id app.PermissionViewTeam = false) :
    (h.run app c).Err.isSome = true
    ∧ (h.run app c).calls.filter (fun call => call.isRanked || call.isSeries) = []
    ∧ (h.run app c).written = [] := by
  cases h <;> simp [Handler.isTeamScoped] at hh
  · exact reactionsTeam_no_permission app c hperm
  · exact channelsTeam_no_permission app c hperm
  · exact threadsTeam_no_permission app c hperm
  · exact newMembers_no_permission app c hperm

/-- Witness of C9: the top threads of a team the session may not view. -/
theorem C9_no_permission_no_query_witness :
    (∀ team, demoApp.GetTeam secretRequest.Params.TeamId = .ok team →
      demoApp.SessionHasPermissionToTeam secretRequest.Session team.Id
        demoApp.PermissionViewTeam = false)
    ∧ (Handler.topThreadsForTeam.run demoApp secretRequest).Err.isSome = true
    ∧ (Handler.topThreadsForTeam.run demoApp secretRequest).calls.filter
        (fun call => call.isRanked || call.isSeries) = []
    ∧ (Handler.topThreadsForTeam.run demoApp secretRequest).written = [] :=
  have hp : ∀ team, demoApp.GetTeam secretRequest.Params.TeamId = .ok team →
      demoApp.SessionHasPermissionToTeam secretRequest.Session team.Id
        demoApp.PermissionViewTeam = false := by
    intro team ht
    have : team = ⟨secretTeam⟩ := (Except.ok.inj ht).symm
    subst this
    decide
  ⟨hp, C9_no_permission_no_query Handler.topThreadsForTeam demoApp secretRequest rfl hp⟩

/-- C10: in the two top-channel handlers, whenever the series query is issued
(the series step is reached with a non-empty page), `StartOfDayForTimeRange` was
called once, on the request's time-range token and the acting user's timezone
location; the start of its result is both the `StartUnixMilli` of the one
ranking query and the start of the series query; and the series query is given
that same location and the granularity chosen from that same token. -/
theorem C10_same_window (h : Handler) (app : App) (c : Context) (user : User)
    (ids : List String) (st : Int) (uid : Option String) (g : PostCountGrouping) (loc : Location)
    (hh : h.isTopChannels = true)
    (hu : app.GetUser c.Session.UserId = .ok user)
    (hmem : Call.PostCountsByDuration ids st uid g loc ∈ (h.run app c).calls) :
    (h.run app c).calls.filter Call.isStartOfDay
        = [Call.StartOfDayForTimeRange c.Params.TimeRange user.GetTimezoneLocation]
    ∧ (∃ rc, (h.run app c).calls.filter Call.isRanked = [rc]
        ∧ rc.opts? = some
            ⟨(app.StartOfDayForTimeRange c.Params.TimeRange user.GetTimezoneLocation).UnixMilli,
              c.Params.Page, c.Params.PerPage⟩)
    ∧ (h.run app c).calls.filter Call.isSeries = [Call.PostCountsByDuration ids st uid g loc]
    ∧ st = (app.StartOfDayForTimeRange c.Params.TimeRange user.GetTimezoneLocation).UnixMilli
    ∧ loc = user.GetTimezoneLocation
    ∧ (g = PostCountGrouping.PostsByHour ↔ c.Params.TimeRange = app.TimeRangeToday)
    ∧ (g = PostCountGrouping.PostsByDay ↔ c.Params.TimeRange ≠ app.TimeRangeToday) := by
  cases h <;> simp [Handler.isTopChannels] at hh
  · obtain ⟨k1, k2, k3, -, k5, k6, -, k8, k9⟩ :=
      channelsTeam_same_window app c user ids st uid g loc hu hmem
    exact ⟨k1, ⟨_, k2, rfl⟩, k3, k5, k6, k8, k9⟩
  · obtain ⟨k1, k2, k3, -, k5, k6, -, k8, k9⟩ :=
      channelsUser_same_window app c user ids st uid g loc hu hmem
    exact ⟨k1, ⟨_, k2, rfl⟩, k3, k5, k6, k8, k9⟩

/-- Witness of C10: the top channels of a team over the last seven days. -/
theorem C10_same_window_witness :
    demoApp.GetUser demoRequest.Session.UserId = .ok ⟨"user1", ⟨"UTC"⟩, false⟩
    ∧ Call.PostCountsByDuration ["chanA", "chanB"] 400 none PostCountGrouping.PostsByDay ⟨"UTC"⟩
        ∈ (Handler.topChannelsForTeam.run demoApp demoRequest).calls
    ∧ (Handler.topChannelsForTeam.run demoApp demoRequest).calls.filter Call.isStartOfDay
        = [Call.StartOfDayForTimeRange "7_day" ⟨"UTC"⟩] :=
  ⟨rfl, by decide,
    (C10_same_window Handler.topChannelsForTeam demoApp demoRequest ⟨"user1", ⟨"UTC"⟩, false⟩
      ["chanA", "chanB"] 400 none PostCountGrouping.PostsByDay ⟨"UTC"⟩ rfl rfl
      (by decide)).1⟩

end Insights
